import Mathlib

/-!
A verification development for the jira-lifecycle-plugin policy engine.

The repository ships its test suite (`TestHandle`, `TestValidateBug`,
`TestBugKeyFromTitle`, `TestIsBugAllowed`, ...) and the `pkg/helpers`
package; the engine itself (`validateBug`, `jiraKeyFromTitle`, `handle`,
`isBugAllowed`, the cherry-pick cloner and the link reconciler) is not in
the sources at hand, so those operations are modelled from the written
specification, with the test fixtures pinning the observable outputs.
`pkg/helpers/helpers.go` is present and is embedded directly.
-/

set_option maxRecDepth 40000

namespace JiraLifecycle

/-! ## Characters and case-insensitive comparison -/

/-- ASCII upper-casing of one character, as `strings.EqualFold` behaves on
the ASCII identifiers this plugin compares. -/
def toUpperCh (c : Char) : Char :=
  if 97 ≤ c.toNat ∧ c.toNat ≤ 122 then Char.ofNat (c.toNat - 32) else c

/-- ASCII upper-casing of a string. -/
def upperStr (s : String) : String := String.mk (s.data.map toUpperCh)

/-- Case-insensitive string equality (model of Go `strings.EqualFold` on
ASCII data). -/
def eqFold (a b : String) : Bool := upperStr a == upperStr b

/-- The apostrophe character, used in user-facing messages. -/
def apos : String := String.mk [Char.ofNat 39]

/-- Go `strings.HasPrefix`. -/
def hasPre (s pre : String) : Bool := List.isPrefixOf pre.data s.data

/-! ## Data model of the validity engine

Modelled from the spec: section 3 (BugState, Dependent, Options,
ValidationResult); the engine source is absent from the sources at hand. -/

/-- A (status, optional resolution) pair; an empty field means unset. -/
structure JiraBugState where
  status : String := ""
  resolution : String := ""
deriving Repr, DecidableEq

/-- A normalized view of a linked ticket, as the dependency resolver
produces it. -/
structure dependent where
  key : String
  bugState : JiraBugState
  targetVersion : Option String := none
deriving Repr, DecidableEq

/-- Per-branch options consumed by the validity engine; `none` means the
predicate is not configured. -/
structure JiraBranchOptions where
  isOpen : Option Bool := none
  targetVersion : Option String := none
  validStates : Option (List JiraBugState) := none
  dependentBugStates : Option (List JiraBugState) := none
  dependentBugTargetVersions : Option (List String) := none
  stateAfterValidation : Option JiraBugState := none
  stateAfterMerge : Option JiraBugState := none
  allowedSecurityLevels : List String := []
deriving Repr, DecidableEq

/-- The view of a ticket the validity engine reads: key, status,
resolution (empty when unset) and the multi-value target-version field
(empty list when unset). -/
structure VIssue where
  key : String := ""
  status : String := ""
  resolution : String := ""
  targetVersions : List String := []
deriving Repr, DecidableEq

/-! ## Message builders (wording pinned by the test fixtures) -/

/-- Markdown link to a ticket. -/
def issueLink (ep key : String) : String :=
  "[Jira Issue " ++ key ++ "](" ++ ep ++ "/browse/" ++ key ++ ")"

/-- Rendering of a (status, resolution) pair in messages. -/
def prettyState (status resolution : String) : String :=
  if status == "" then "any status with resolution " ++ resolution
  else if resolution == "" then status
  else status ++ " (" ++ resolution ++ ")"

/-- Rendering of a list of states. -/
def prettyStates (l : List JiraBugState) : String :=
  String.intercalate ", " (l.map (fun s => prettyState s.status s.resolution))

/-- A ticket is open when its status is not (case-insensitively) CLOSED. -/
def isOpenBug (bug : VIssue) : Bool := !(eqFold bug.status "CLOSED")

/-- A concrete (status, resolution) pair matches a configured state when
each configured component is either unset or case-insensitively equal. -/
def stateMatches (status resolution : String) (s : JiraBugState) : Bool :=
  (s.status == "" || eqFold s.status status) &&
  (s.resolution == "" || eqFold s.resolution resolution)

/-- Case-insensitive equality of two configured states, used for
de-duplication of the allowed-state set. -/
def stateEqCI (a b : JiraBugState) : Bool :=
  eqFold a.status b.status && eqFold a.resolution b.resolution

/-- The status-set predicate's comparison set: the configured valid states
plus the post-validation target state unless an equal state is already
listed. -/
def allowedStates (vs : List JiraBugState) (sav : Option JiraBugState) :
    List JiraBugState :=
  match sav with
  | none => vs
  | some s => if vs.any (stateEqCI s) then vs else vs ++ [s]

/-! ## The validity engine -/

/-- Dependents must live in the OCPBUGS project namespace. -/
def keyInProject (k : String) : Bool := hasPre k "OCPBUGS-"

/-- Open/closed predicate: `none` is skipped, otherwise one validation or
one reason. -/
def openContrib (bug : VIssue) (o : Option Bool) : List String × List String :=
  match o with
  | none => ([], [])
  | some want =>
    let opened := isOpenBug bug
    let was : String := if opened then "is" else "isn" ++ apos ++ "t"
    if opened == want then
      (["bug " ++ was ++ " open, matching expected state (" ++
          (if want then "open" else "not open") ++ ")"], [])
    else
      ([], ["expected the bug to " ++ (if want then "" else "not ") ++
          "be open, but it " ++ was])

/-- Target-version predicate; absence of a version on the ticket is a
distinct failure from a mismatch. -/
def targetContrib (bug : VIssue) (o : Option String) : List String × List String :=
  match o with
  | none => ([], [])
  | some want =>
    match bug.targetVersions with
    | [] => ([], ["expected the bug to target the \"" ++ want ++
        "\" version, but no target version was set"])
    | v :: _ =>
      if v == want then
        (["bug target version (" ++ v ++
            ") matches configured target version for branch (" ++ want ++ ")"], [])
      else
        ([], ["expected the bug to target the \"" ++ want ++
            "\" version, but it targets \"" ++ v ++ "\" instead"])

/-- Status-set predicate over the de-duplicated union of the configured
valid states and the post-validation state. -/
def stateContrib (bug : VIssue) (o : Option (List JiraBugState))
    (sav : Option JiraBugState) : List String × List String :=
  match o with
  | none => ([], [])
  | some vs =>
    let allowed := allowedStates vs sav
    if allowed.any (stateMatches bug.status bug.resolution) then
      (["bug is in the state " ++ prettyState bug.status bug.resolution ++
          ", which is one of the valid states (" ++ prettyStates allowed ++ ")"], [])
    else
      ([], ["expected the bug to be in one of the following states: " ++
          prettyStates allowed ++ ", but it is " ++
          prettyState bug.status bug.resolution ++ " instead"])

/-- Pairwise concatenation of per-element contributions. -/
def concatContribs (f : α → List String × List String) :
    List α → List String × List String
  | [] => ([], [])
  | a :: l =>
    let r := concatContribs f l
    ((f a).1 ++ r.1, (f a).2 ++ r.2)

/-- Dependent-state check for one dependent; dependents outside the
required project are skipped here. -/
def depStateContrib1 (ep : String) (states : List JiraBugState)
    (d : dependent) : List String × List String :=
  if !(keyInProject d.key) then ([], [])
  else if states.any (stateMatches d.bugState.status d.bugState.resolution) then
    (["dependent bug " ++ issueLink ep d.key ++ " is in the state " ++
        prettyState d.bugState.status d.bugState.resolution ++
        ", which is one of the valid states (" ++ prettyStates states ++ ")"], [])
  else
    ([], ["expected dependent " ++ issueLink ep d.key ++
        " to be in one of the following states: " ++ prettyStates states ++
        ", but it is " ++ prettyState d.bugState.status d.bugState.resolution ++
        " instead"])

/-- Dependent-state predicate over the whole dependent list. -/
def depStateContrib (ep : String) (o : Option (List JiraBugState))
    (deps : List dependent) : List String × List String :=
  match o with
  | none => ([], [])
  | some states => concatContribs (depStateContrib1 ep states) deps

/-- Dependent-target-version check for one dependent; dependents outside
the required project are skipped here. -/
def depVersionContrib1 (ep : String) (vers : List String)
    (d : dependent) : List String × List String :=
  if !(keyInProject d.key) then ([], [])
  else
    match d.targetVersion with
    | none => ([], ["expected dependent " ++ issueLink ep d.key ++
        " to target a version in " ++ String.intercalate ", " vers ++
        ", but no target version was set"])
    | some v =>
      if vers.contains v then
        (["dependent " ++ issueLink ep d.key ++ " targets the \"" ++ v ++
            "\" version, which is one of the valid target versions: " ++
            String.intercalate ", " vers], [])
      else
        ([], ["expected dependent " ++ issueLink ep d.key ++
            " to target a version in " ++ String.intercalate ", " vers ++
            ", but it targets \"" ++ v ++ "\" instead"])

/-- Dependent-target-version predicate over the whole dependent list. -/
def depVersionContrib (ep : String) (o : Option (List String))
    (deps : List dependent) : List String × List String :=
  match o with
  | none => ([], [])
  | some vers => concatContribs (depVersionContrib1 ep vers) deps

/-- Wording of the dependent requirement in the no-dependents reason. -/
def depCriteria (states : Option (List JiraBugState))
    (vers : Option (List String)) : String :=
  match vers, states with
  | some vv, some ss => "targeting a version in " ++ String.intercalate ", " vv ++
      " and in one of the following states: " ++ prettyStates ss
  | none, some ss => "in one of the following states: " ++ prettyStates ss
  | some vv, none => "targeting a version in " ++ String.intercalate ", " vv
  | none, none => ""

/-- "Has dependents" marker: a pass when a dependent-related predicate is
configured and at least one dependent was found, a failure when none was. -/
def markerContrib (bug : VIssue) (ep : String) (o : JiraBranchOptions)
    (deps : List dependent) : List String × List String :=
  if o.dependentBugStates.isSome || o.dependentBugTargetVersions.isSome then
    if deps.isEmpty then
      ([], ["expected " ++ issueLink ep bug.key ++ " to depend on a bug " ++
          depCriteria o.dependentBugStates o.dependentBugTargetVersions ++
          ", but no dependents were found"])
    else
      (["bug has dependents"], [])
  else ([], [])

/-- Reason recorded for a dependent outside the required project. -/
def projMsg (d : dependent) : String :=
  "dependent bug " ++ d.key ++ " is not in the required `OCPBUGS` project"

/-- Modelled from the spec: `validateBug` (section 4.4 of the spec; the
engine source file is absent from the sources at hand). Predicates are
evaluated independently in a fixed order with reasons accumulating, and
the trailing dependent-project loop overwrites the accumulated reasons
with the validations list plus the mismatch message of each out-of-project
dependent in turn, as the test fixtures pin. -/
def validateBug (bug : VIssue) (dependents : List dependent)
    (options : JiraBranchOptions) (jiraEndpoint : String)
    (_bugzillaEndpoint : String) : Bool × Bool × List String × List String :=
  let c1 := openContrib bug options.isOpen
  let c2 := targetContrib bug options.targetVersion
  let c3 := stateContrib bug options.validStates options.stateAfterValidation
  let c4 := depStateContrib jiraEndpoint options.dependentBugStates dependents
  let c5 := depVersionContrib jiraEndpoint options.dependentBugTargetVersions dependents
  let c6 := markerContrib bug jiraEndpoint options dependents
  let validations := c1.1 ++ c2.1 ++ c3.1 ++ c4.1 ++ c5.1 ++ c6.1
  let errors := c1.2 ++ c2.2 ++ c3.2 ++ c4.2 ++ c5.2 ++ c6.2
  match (dependents.filter (fun d => !(keyInProject d.key))).getLast? with
  | none => (errors.isEmpty, false, validations, errors)
  | some w => (false, true, validations, validations ++ [projMsg w])

/-! ### The `TestValidateBug` fixtures, reproduced against the model -/

/-- Endpoint used throughout the test fixtures. -/
def jiraEP : String := "https://my-jira.com"

/-- Legacy endpoint used throughout the test fixtures. -/
def bzEP : String := "https://my-bugzilla.com"

example : validateBug {} [] {} jiraEP bzEP = (true, false, [], []) := by decide

example : validateBug { status := "NEW" } [] { isOpen := some true } jiraEP bzEP =
    (true, false, ["bug is open, matching expected state (open)"], []) := by decide

example : validateBug { status := "CLOSED" } [] { isOpen := some false } jiraEP bzEP =
    (true, false, ["bug isn" ++ apos ++ "t open, matching expected state (not open)"], []) := by
  decide

example : validateBug { status := "CLOSED" } [] { isOpen := some true } jiraEP bzEP =
    (false, false, [], ["expected the bug to be open, but it isn" ++ apos ++ "t"]) := by decide

example : validateBug { status := "NEW" } [] { isOpen := some false } jiraEP bzEP =
    (false, false, [], ["expected the bug to not be open, but it is"]) := by decide

example : validateBug { targetVersions := ["v1"] } [] { targetVersion := some "v1" } jiraEP bzEP =
    (true, false, ["bug target version (v1) matches configured target version for branch (v1)"],
      []) := by decide

example : validateBug { targetVersions := ["v2"] } [] { targetVersion := some "v1" } jiraEP bzEP =
    (false, false, [],
      ["expected the bug to target the \"v1\" version, but it targets \"v2\" instead"]) := by
  decide

example : validateBug {} [] { targetVersion := some "v1" } jiraEP bzEP =
    (false, false, [],
      ["expected the bug to target the \"v1\" version, but no target version was set"]) := by
  decide

example : validateBug { status := "MODIFIED" } []
    { validStates := some [{ status := "MODIFIED" }] } jiraEP bzEP =
    (true, false,
      ["bug is in the state MODIFIED, which is one of the valid states (MODIFIED)"], []) := by
  decide

example : validateBug { status := "Modified" } []
    { validStates := some [{ status := "MODIFIED" }] } jiraEP bzEP =
    (true, false,
      ["bug is in the state Modified, which is one of the valid states (MODIFIED)"], []) := by
  decide

example : validateBug { status := "UPDATED" } []
    { validStates := some [{ status := "MODIFIED" }],
      stateAfterValidation := some { status := "UPDATED" } } jiraEP bzEP =
    (true, false,
      ["bug is in the state UPDATED, which is one of the valid states (MODIFIED, UPDATED)"],
      []) := by decide

example : validateBug { status := "MODIFIED" } []
    { validStates := some [{ status := "VERIFIED" }] } jiraEP bzEP =
    (false, false, [],
      ["expected the bug to be in one of the following states: VERIFIED, but it is MODIFIED instead"]) := by
  decide

example : validateBug { key := "OCPBUGS-123" } []
    { dependentBugStates := some [{ status := "VERIFIED" }] } jiraEP bzEP =
    (false, false, [],
      ["expected [Jira Issue OCPBUGS-123](https://my-jira.com/browse/OCPBUGS-123) to depend on a bug in one of the following states: VERIFIED, but no dependents were found"]) := by
  decide

example : validateBug {} [{ key := "OCPBUGS-124", bugState := { status := "MODIFIED" } }]
    { dependentBugStates := some [{ status := "VERIFIED" }] } jiraEP bzEP =
    (false, false, ["bug has dependents"],
      ["expected dependent [Jira Issue OCPBUGS-124](https://my-jira.com/browse/OCPBUGS-124) to be in one of the following states: VERIFIED, but it is MODIFIED instead"]) := by
  decide

example : validateBug {}
    [{ key := "OCPBUGS-124", bugState := { status := "MODIFIED" }, targetVersion := some "v2" }]
    { dependentBugTargetVersions := some ["v1"] } jiraEP bzEP =
    (false, false, ["bug has dependents"],
      ["expected dependent [Jira Issue OCPBUGS-124](https://my-jira.com/browse/OCPBUGS-124) to target a version in v1, but it targets \"v2\" instead"]) := by
  decide

example : validateBug {} [{ key := "OCPBUGS-124", bugState := { status := "MODIFIED" } }]
    { dependentBugTargetVersions := some ["v1"] } jiraEP bzEP =
    (false, false, ["bug has dependents"],
      ["expected dependent [Jira Issue OCPBUGS-124](https://my-jira.com/browse/OCPBUGS-124) to target a version in v1, but no target version was set"]) := by
  decide

example : validateBug { status := "MODIFIED", targetVersions := ["v1"] }
    [{ key := "OCPBUGS-124", bugState := { status := "MODIFIED" }, targetVersion := some "v2" }]
    { isOpen := some true, targetVersion := some "v1",
      validStates := some [{ status := "MODIFIED" }],
      dependentBugStates := some [{ status := "MODIFIED" }],
      dependentBugTargetVersions := some ["v2"] } jiraEP bzEP =
    (true, false,
      ["bug is open, matching expected state (open)",
        "bug target version (v1) matches configured target version for branch (v1)",
        "bug is in the state MODIFIED, which is one of the valid states (MODIFIED)",
        "dependent bug [Jira Issue OCPBUGS-124](https://my-jira.com/browse/OCPBUGS-124) is in the state MODIFIED, which is one of the valid states (MODIFIED)",
        "dependent [Jira Issue OCPBUGS-124](https://my-jira.com/browse/OCPBUGS-124) targets the \"v2\" version, which is one of the valid target versions: v2",
        "bug has dependents"],
      []) := by decide

example : validateBug { status := "CLOSED", targetVersions := ["v1"] }
    [{ key := "OCPBUGS-124", bugState := { status := "MODIFIED" }, targetVersion := some "v2" }]
    { isOpen := some true, targetVersion := some "v2",
      validStates := some [{ status := "VERIFIED" }],
      dependentBugStates := some [{ status := "VERIFIED" }] } jiraEP bzEP =
    (false, false, ["bug has dependents"],
      ["expected the bug to be open, but it isn" ++ apos ++ "t",
        "expected the bug to target the \"v2\" version, but it targets \"v1\" instead",
        "expected the bug to be in one of the following states: VERIFIED, but it is CLOSED instead",
        "expected dependent [Jira Issue OCPBUGS-124](https://my-jira.com/browse/OCPBUGS-124) to be in one of the following states: VERIFIED, but it is MODIFIED instead"]) := by
  decide

example : validateBug { status := "CLOSED", resolution := "LOL_GO_AWAY" } []
    { validStates := some [{ status := "CLOSED" }] } jiraEP bzEP =
    (true, false,
      ["bug is in the state CLOSED (LOL_GO_AWAY), which is one of the valid states (CLOSED)"],
      []) := by decide

example : validateBug { status := "CLOSED", resolution := "LOL_GO_AWAY" } []
    { validStates := some [{ status := "CLOSED", resolution := "ERRATA" }] } jiraEP bzEP =
    (false, false, [],
      ["expected the bug to be in one of the following states: CLOSED (ERRATA), but it is CLOSED (LOL_GO_AWAY) instead"]) := by
  decide

example : validateBug { status := "CLOSED", resolution := "ERRATA" } []
    { validStates := some [{ status := "CLOSED", resolution := "ERRATA" }] } jiraEP bzEP =
    (true, false,
      ["bug is in the state CLOSED (ERRATA), which is one of the valid states (CLOSED (ERRATA))"],
      []) := by decide

example : validateBug { status := "Closed", resolution := "Errata" } []
    { validStates := some [{ status := "CLOSED", resolution := "ERRATA" }] } jiraEP bzEP =
    (true, false,
      ["bug is in the state Closed (Errata), which is one of the valid states (CLOSED (ERRATA))"],
      []) := by decide

example : validateBug { status := "CLOSED", resolution := "ERRATA" } []
    { validStates := some [{ resolution := "ERRATA" }] } jiraEP bzEP =
    (true, false,
      ["bug is in the state CLOSED (ERRATA), which is one of the valid states (any status with resolution ERRATA)"],
      []) := by decide

example : validateBug { status := "CLOSED", resolution := "ERRATA" } []
    { validStates := some [{ status := "RESOLVED", resolution := "ERRATA" }] } jiraEP bzEP =
    (false, false, [],
      ["expected the bug to be in one of the following states: RESOLVED (ERRATA), but it is CLOSED (ERRATA) instead"]) := by
  decide

example : validateBug { status := "CLOSED", resolution := "LOL_GO_AWAY" }
    [{ key := "OCPBUGS-124", bugState := { status := "CLOSED", resolution := "LOL_GO_AWAY" } }]
    { dependentBugStates := some [{ status := "CLOSED" }] } jiraEP bzEP =
    (true, false,
      ["dependent bug [Jira Issue OCPBUGS-124](https://my-jira.com/browse/OCPBUGS-124) is in the state CLOSED (LOL_GO_AWAY), which is one of the valid states (CLOSED)",
        "bug has dependents"],
      []) := by decide

example : validateBug { status := "CLOSED", resolution := "LOL_GO_AWAY" }
    [{ key := "OCPBUGS-124", bugState := { status := "CLOSED", resolution := "LOL_GO_AWAY" } }]
    { dependentBugStates := some [{ status := "CLOSED", resolution := "ERRATA" }] } jiraEP bzEP =
    (false, false, ["bug has dependents"],
      ["expected dependent [Jira Issue OCPBUGS-124](https://my-jira.com/browse/OCPBUGS-124) to be in one of the following states: CLOSED (ERRATA), but it is CLOSED (LOL_GO_AWAY) instead"]) := by
  decide

example : validateBug { status := "CLOSED", resolution := "ERRATA" }
    [{ key := "OCPBUGS-124", bugState := { status := "CLOSED", resolution := "ERRATA" } }]
    { dependentBugStates := some [{ status := "CLOSED", resolution := "ERRATA" }] } jiraEP bzEP =
    (true, false,
      ["dependent bug [Jira Issue OCPBUGS-124](https://my-jira.com/browse/OCPBUGS-124) is in the state CLOSED (ERRATA), which is one of the valid states (CLOSED (ERRATA))",
        "bug has dependents"],
      []) := by decide

example : validateBug { status := "MODIFIED" } []
    { validStates := some [{ status := "MODIFIED" }],
      stateAfterValidation := some { status := "VERIFIED" } } jiraEP bzEP =
    (true, false,
      ["bug is in the state MODIFIED, which is one of the valid states (MODIFIED, VERIFIED)"],
      []) := by decide

example : validateBug { status := "MODIFIED" } []
    { validStates := some [{ status := "MODIFIED" }, { status := "VERIFIED" }],
      stateAfterValidation := some { status := "VERIFIED" } } jiraEP bzEP =
    (true, false,
      ["bug is in the state MODIFIED, which is one of the valid states (MODIFIED, VERIFIED)"],
      []) := by decide

example : validateBug { status := "CLOSED", resolution := "ERRATA" }
    [{ key := "OCPBUGSM-38676", bugState := { status := "CLOSED", resolution := "ERRATA" } }]
    { dependentBugStates := some [{ status := "CLOSED", resolution := "ERRATA" }] } jiraEP bzEP =
    (false, true, ["bug has dependents"],
      ["bug has dependents",
        "dependent bug OCPBUGSM-38676 is not in the required `OCPBUGS` project"]) := by decide

/-- The `TestHandle` fixture "Bug with dependent bug not in OCPBUGS is
invalid": the reasons reported are the validations plus the project
mismatch. -/
example : validateBug { key := "OCPBUGS-124", status := "MODIFIED", targetVersions := ["v1"] }
    [{ key := "OCPBUGSM-123", bugState := { status := "VERIFIED" }, targetVersion := some "v2" }]
    { isOpen := some true, targetVersion := some "v1",
      dependentBugStates := some [{ status := "VERIFIED" }],
      dependentBugTargetVersions := some ["v2"] } jiraEP bzEP =
    (false, true,
      ["bug is open, matching expected state (open)",
        "bug target version (v1) matches configured target version for branch (v1)",
        "bug has dependents"],
      ["bug is open, matching expected state (open)",
        "bug target version (v1) matches configured target version for branch (v1)",
        "bug has dependents",
        "dependent bug OCPBUGSM-123 is not in the required `OCPBUGS` project"]) := by decide

/-! ## General structure of `validateBug` -/

/-- The validations list assembled from every predicate, in evaluation
order. -/
def allValidations (bug : VIssue) (deps : List dependent)
    (opts : JiraBranchOptions) (ep : String) : List String :=
  (openContrib bug opts.isOpen).1 ++ (targetContrib bug opts.targetVersion).1 ++
  (stateContrib bug opts.validStates opts.stateAfterValidation).1 ++
  (depStateContrib ep opts.dependentBugStates deps).1 ++
  (depVersionContrib ep opts.dependentBugTargetVersions deps).1 ++
  (markerContrib bug ep opts deps).1

/-- The failure reasons accumulated by the predicates, in evaluation
order, before the dependent-project loop runs. -/
def allReasonsPre (bug : VIssue) (deps : List dependent)
    (opts : JiraBranchOptions) (ep : String) : List String :=
  (openContrib bug opts.isOpen).2 ++ (targetContrib bug opts.targetVersion).2 ++
  (stateContrib bug opts.validStates opts.stateAfterValidation).2 ++
  (depStateContrib ep opts.dependentBugStates deps).2 ++
  (depVersionContrib ep opts.dependentBugTargetVersions deps).2 ++
  (markerContrib bug ep opts deps).2

/-- The dependents whose key lies outside the required project. -/
def wrongDeps (deps : List dependent) : List dependent :=
  deps.filter (fun d => !(keyInProject d.key))

theorem validateBug_validations (bug : VIssue) (deps : List dependent)
    (opts : JiraBranchOptions) (ep bz : String) :
    (validateBug bug deps opts ep bz).2.2.1 = allValidations bug deps opts ep := by
  unfold validateBug
  split <;> rfl

theorem validateBug_reasons_clean (bug : VIssue) (deps : List dependent)
    (opts : JiraBranchOptions) (ep bz : String) (h : wrongDeps deps = []) :
    (validateBug bug deps opts ep bz).2.2.2 = allReasonsPre bug deps opts ep ∧
    (validateBug bug deps opts ep bz).2.1 = false := by
  unfold validateBug
  have h2 : (deps.filter (fun d => !(keyInProject d.key))).getLast? = none := by
    unfold wrongDeps at h
    rw [h]
    rfl
  rw [h2]
  exact ⟨rfl, rfl⟩

theorem validateBug_reasons_wrong (bug : VIssue) (deps : List dependent)
    (opts : JiraBranchOptions) (ep bz : String) (w : dependent)
    (h : (wrongDeps deps).getLast? = some w) :
    (validateBug bug deps opts ep bz).2.2.2 =
      allValidations bug deps opts ep ++ [projMsg w] ∧
    (validateBug bug deps opts ep bz).1 = false ∧
    (validateBug bug deps opts ep bz).2.1 = true := by
  unfold validateBug
  unfold wrongDeps at h
  rw [h]
  exact ⟨rfl, rfl, rfl⟩

theorem validateBug_valid_eq (bug : VIssue) (deps : List dependent)
    (opts : JiraBranchOptions) (ep bz : String) (h : wrongDeps deps = []) :
    (validateBug bug deps opts ep bz).1 =
      (allReasonsPre bug deps opts ep).isEmpty := by
  unfold validateBug
  have h2 : (deps.filter (fun d => !(keyInProject d.key))).getLast? = none := by
    unfold wrongDeps at h
    rw [h]
    rfl
  rw [h2]
  rfl

/-- Which options leave no predicate configured (`stateAfterValidation`
matters only alongside `validStates`, and security levels are checked
outside `validateBug`). -/
def noPredicates (o : JiraBranchOptions) : Prop :=
  o.isOpen = none ∧ o.targetVersion = none ∧ o.validStates = none ∧
  o.dependentBugStates = none ∧ o.dependentBugTargetVersions = none

/-! ## Claim C1 -/

/-- C1: `validateBug` returns valid exactly when the returned reasons
list is empty; and when no predicate is configured, a ticket whose
dependents all lie in the required project (in particular one with no
dependents) is valid with empty validations and empty reasons. (The
claim's unconditional form fails on out-of-project dependents, see the
counterexample.) -/
theorem validateBug_valid_iff_reasons_empty (bug : VIssue) (deps : List dependent)
    (opts : JiraBranchOptions) (ep bz : String) :
    ((validateBug bug deps opts ep bz).1 = true ↔
      (validateBug bug deps opts ep bz).2.2.2 = []) ∧
    (noPredicates opts → (∀ d ∈ deps, keyInProject d.key = true) →
      validateBug bug deps opts ep bz = (true, false, [], [])) := by
  constructor
  · cases hw : (wrongDeps deps).getLast? with
    | none =>
      have hl : wrongDeps deps = [] := List.getLast?_eq_none_iff.mp hw
      obtain ⟨hr, _⟩ := validateBug_reasons_clean bug deps opts ep bz hl
      have hv := validateBug_valid_eq bug deps opts ep bz hl
      rw [hv, hr]
      exact List.isEmpty_iff
    | some w =>
      obtain ⟨hr, hv, _⟩ := validateBug_reasons_wrong bug deps opts ep bz w hw
      rw [hv, hr]
      simp
  · intro hnp hin
    obtain ⟨h1, h2, h3, h4, h5⟩ := hnp
    have hl : wrongDeps deps = [] := by
      unfold wrongDeps
      rw [List.filter_eq_nil_iff]
      intro d hd
      rw [hin d hd]
      intro hc
      exact absurd hc (by simp)
    have hg : (List.filter (fun d => !(keyInProject d.key)) deps).getLast? = none := by
      unfold wrongDeps at hl
      rw [hl]
      rfl
    unfold validateBug markerContrib
    rw [h1, h2, h3, h4, h5, hg]
    rfl

/-- The C1 claim as stated is false: with no predicates configured at
all, a ticket carrying a dependent outside the required project is still
reported invalid, with a nonempty reasons list. -/
theorem validateBug_no_predicates_cex :
    noPredicates {} ∧
    validateBug {} [{ key := "QQQ-7", bugState := {} }] {} jiraEP bzEP =
      (false, true, [],
        ["dependent bug QQQ-7 is not in the required `OCPBUGS` project"]) := by
  constructor
  · exact ⟨rfl, rfl, rfl, rfl, rfl⟩
  · decide

/-- Witness for C1 at a concrete input. -/
theorem validateBug_valid_iff_reasons_empty_witness :
    ((validateBug { status := "NEW" } [] {} jiraEP bzEP).1 = true ↔
      (validateBug { status := "NEW" } [] {} jiraEP bzEP).2.2.2 = []) ∧
    validateBug { status := "NEW" } [] {} jiraEP bzEP = (true, false, [], []) := by
  have h := validateBug_valid_iff_reasons_empty { status := "NEW" } [] {} jiraEP bzEP
  exact ⟨h.1, h.2 ⟨rfl, rfl, rfl, rfl, rfl⟩ (by intro d hd; cases hd)⟩

/-! ## Claim C2 -/

/-- C2 as stated is false: with an out-of-project dependent present, the
failed open/closed predicate contributes no reason — the reasons list is
rebuilt from the validations followed by the project-mismatch message, so
the marker text precedes (rather than follows) the project check's
output. -/
theorem validateBug_order_cex :
    validateBug { status := "CLOSED" } [{ key := "ABC-1", bugState := {} }]
      { isOpen := some true, dependentBugStates := some [{ status := "VERIFIED" }] }
      jiraEP bzEP =
      (false, true, ["bug has dependents"],
        ["bug has dependents",
          "dependent bug ABC-1 is not in the required `OCPBUGS` project"]) ∧
    ("expected the bug to be open, but it isn" ++ apos ++ "t") ∉
      (validateBug { status := "CLOSED" } [{ key := "ABC-1", bugState := {} }]
        { isOpen := some true, dependentBugStates := some [{ status := "VERIFIED" }] }
        jiraEP bzEP).2.2.2 := by
  constructor
  · decide
  · decide

/-- C2 amended: predicates are evaluated independently in the fixed order
open/closed → target version → status set → dependent states → dependent
target versions → "has dependents" marker, every validation and reason
accumulating in that order; the dependent-project loop runs last and,
when an out-of-project dependent exists, replaces the accumulated reasons
by the validations plus that dependent's mismatch message; an absent
predicate contributes neither a pass nor a fail. -/
theorem validateBug_predicate_order (bug : VIssue) (deps : List dependent)
    (opts : JiraBranchOptions) (ep bz : String) :
    (validateBug bug deps opts ep bz).2.2.1 = allValidations bug deps opts ep ∧
    (wrongDeps deps = [] →
      (validateBug bug deps opts ep bz).2.2.2 = allReasonsPre bug deps opts ep) ∧
    (∀ w, (wrongDeps deps).getLast? = some w →
      (validateBug bug deps opts ep bz).2.2.2 =
        allValidations bug deps opts ep ++ [projMsg w]) ∧
    (∀ b, openContrib b none = ([], [])) ∧
    (∀ b, targetContrib b none = ([], [])) ∧
    (∀ b s, stateContrib b none s = ([], [])) ∧
    (∀ e d, depStateContrib e none d = ([], [])) ∧
    (∀ e d, depVersionContrib e none d = ([], [])) :=
  ⟨validateBug_validations bug deps opts ep bz,
   fun h => (validateBug_reasons_clean bug deps opts ep bz h).1,
   fun w h => (validateBug_reasons_wrong bug deps opts ep bz w h).1,
   fun _ => rfl, fun _ => rfl, fun _ _ => rfl, fun _ _ => rfl, fun _ _ => rfl⟩

/-- Witness for C2's amended statement at a concrete input. -/
theorem validateBug_predicate_order_witness :
    (validateBug { status := "CLOSED" } [] { isOpen := some true } jiraEP bzEP).2.2.1 =
      allValidations { status := "CLOSED" } [] { isOpen := some true } jiraEP ∧
    (validateBug { status := "CLOSED" } [] { isOpen := some true } jiraEP bzEP).2.2.2 =
      allReasonsPre { status := "CLOSED" } [] { isOpen := some true } jiraEP :=
  ⟨(validateBug_predicate_order { status := "CLOSED" } [] { isOpen := some true }
      jiraEP bzEP).1,
   (validateBug_predicate_order { status := "CLOSED" } [] { isOpen := some true }
      jiraEP bzEP).2.1 rfl⟩

/-! ## Claim C4 -/

theorem depStateContrib_nil (ep : String) (o : Option (List JiraBugState)) :
    depStateContrib ep o [] = ([], []) := by
  cases o <;> rfl

theorem depVersionContrib_nil (ep : String) (o : Option (List String)) :
    depVersionContrib ep o [] = ([], []) := by
  cases o <;> rfl

/-- The reason recorded when dependents were expected but none found. -/
def noDependentsMsg (bug : VIssue) (ep : String) (opts : JiraBranchOptions) : String :=
  "expected " ++ issueLink ep bug.key ++ " to depend on a bug " ++
    depCriteria opts.dependentBugStates opts.dependentBugTargetVersions ++
    ", but no dependents were found"

/-- C4: with a dependent-related predicate configured and an empty
dependent list, `validateBug` is invalid and reports the "no dependents
were found" reason; the "has dependents" marker passes exactly when a
dependent-related predicate is configured and at least one dependent was
found. -/
theorem validateBug_no_dependents (bug : VIssue) (deps : List dependent)
    (opts : JiraBranchOptions) (ep bz : String) :
    ((opts.dependentBugStates.isSome || opts.dependentBugTargetVersions.isSome) = true →
      deps = [] →
      (validateBug bug deps opts ep bz).1 = false ∧
      noDependentsMsg bug ep opts ∈ (validateBug bug deps opts ep bz).2.2.2) ∧
    ((markerContrib bug ep opts deps).1 = ["bug has dependents"] ↔
      ((opts.dependentBugStates.isSome || opts.dependentBugTargetVersions.isSome) = true ∧
        deps ≠ [])) := by
  constructor
  · intro hconf hdeps
    subst hdeps
    have hmark : markerContrib bug ep opts [] = ([], [noDependentsMsg bug ep opts]) := by
      unfold markerContrib noDependentsMsg
      rw [hconf]
      rfl
    have hpre : allReasonsPre bug [] opts ep =
        (openContrib bug opts.isOpen).2 ++ (targetContrib bug opts.targetVersion).2 ++
        (stateContrib bug opts.validStates opts.stateAfterValidation).2 ++
        [noDependentsMsg bug ep opts] := by
      unfold allReasonsPre
      rw [depStateContrib_nil, depVersionContrib_nil, hmark]
      simp
    have hclean := (validateBug_reasons_clean bug [] opts ep bz rfl).1
    have hval := validateBug_valid_eq bug [] opts ep bz rfl
    constructor
    · rw [hval]
      cases hh : allReasonsPre bug [] opts ep with
      | nil =>
        rw [hpre] at hh
        exact absurd hh (by simp)
      | cons a l => rfl
    · rw [hclean, hpre]
      simp
  · unfold markerContrib
    cases hconf : (opts.dependentBugStates.isSome || opts.dependentBugTargetVersions.isSome) with
    | false => simp
    | true =>
      cases deps with
      | nil => simp
      | cons a l => simp

/-- Witness for C4 at the fixture input "dependent status requirement with
no dependent bugs". -/
theorem validateBug_no_dependents_witness :
    (validateBug { key := "OCPBUGS-123" } []
      { dependentBugStates := some [{ status := "VERIFIED" }] } jiraEP bzEP).1 = false ∧
    noDependentsMsg { key := "OCPBUGS-123" } jiraEP
        { dependentBugStates := some [{ status := "VERIFIED" }] } ∈
      (validateBug { key := "OCPBUGS-123" } []
        { dependentBugStates := some [{ status := "VERIFIED" }] } jiraEP bzEP).2.2.2 :=
  (validateBug_no_dependents { key := "OCPBUGS-123" } []
    { dependentBugStates := some [{ status := "VERIFIED" }] } jiraEP bzEP).1 rfl rfl

/-! ## Claim C5 -/

/-- C5 as stated is false: with an out-of-project dependent present, the
other configured predicate's failure reason (here the target-version
mismatch) is dropped from the reported reasons, so other validation
output *is* suppressed. -/
theorem validateBug_suppression_cex :
    validateBug { targetVersions := ["v1"] } [{ key := "OTHER-2", bugState := {} }]
      { targetVersion := some "v2",
        dependentBugStates := some [{ status := "VERIFIED" }] } jiraEP bzEP =
      (false, true, ["bug has dependents"],
        ["bug has dependents",
          "dependent bug OTHER-2 is not in the required `OCPBUGS` project"]) ∧
    "expected the bug to target the \"v2\" version, but it targets \"v1\" instead" ∉
      (validateBug { targetVersions := ["v1"] } [{ key := "OTHER-2", bugState := {} }]
        { targetVersion := some "v2",
          dependentBugStates := some [{ status := "VERIFIED" }] } jiraEP bzEP).2.2.2 := by
  constructor
  · decide
  · decide

/-- C5 amended: a dependent outside the required project always sets
`invalidDependentProject`, invalidates the ticket, and is reported — the
reasons list becomes the validations followed by the mismatch message of
the last such dependent, dropping reasons accumulated earlier. -/
theorem validateBug_wrong_project (bug : VIssue) (deps : List dependent)
    (opts : JiraBranchOptions) (ep bz : String) (w : dependent)
    (h : (wrongDeps deps).getLast? = some w) :
    (validateBug bug deps opts ep bz).2.1 = true ∧
    (validateBug bug deps opts ep bz).1 = false ∧
    (validateBug bug deps opts ep bz).2.2.2 =
      allValidations bug deps opts ep ++ [projMsg w] ∧
    projMsg w ∈ (validateBug bug deps opts ep bz).2.2.2 := by
  obtain ⟨hr, hv, hi⟩ := validateBug_reasons_wrong bug deps opts ep bz w h
  refine ⟨hi, hv, hr, ?_⟩
  rw [hr]
  simp

/-- Witness for C5's amended statement at the fixture input "dependent bug
not being in OCPBUGS project". -/
theorem validateBug_wrong_project_witness :
    (validateBug { status := "CLOSED", resolution := "ERRATA" }
      [{ key := "OCPBUGSM-38676",
         bugState := { status := "CLOSED", resolution := "ERRATA" } }]
      { dependentBugStates := some [{ status := "CLOSED", resolution := "ERRATA" }] }
      jiraEP bzEP).2.1 = true ∧
    projMsg { key := "OCPBUGSM-38676",
              bugState := { status := "CLOSED", resolution := "ERRATA" } } ∈
      (validateBug { status := "CLOSED", resolution := "ERRATA" }
        [{ key := "OCPBUGSM-38676",
           bugState := { status := "CLOSED", resolution := "ERRATA" } }]
        { dependentBugStates := some [{ status := "CLOSED", resolution := "ERRATA" }] }
        jiraEP bzEP).2.2.2 := by
  have h := validateBug_wrong_project { status := "CLOSED", resolution := "ERRATA" }
    [{ key := "OCPBUGSM-38676",
       bugState := { status := "CLOSED", resolution := "ERRATA" } }]
    { dependentBugStates := some [{ status := "CLOSED", resolution := "ERRATA" }] }
    jiraEP bzEP
    { key := "OCPBUGSM-38676",
      bugState := { status := "CLOSED", resolution := "ERRATA" } } rfl
  exact ⟨h.1, h.2.2.2⟩

/-! ## Claim C3 -/

theorem upperStr_eq_empty_iff (s : String) : upperStr s = "" ↔ s = "" := by
  cases s with
  | mk l => cases l <;> simp [upperStr, String.ext_iff]

/-- C3: the status-set predicate compares the ticket's (status,
resolution) against the configured valid states plus the post-validation
state, the latter dropped when an equal state is already listed; the
comparison only depends on the upper-cased form of either side (it is
case-insensitive on status and on resolution), and a configured state
without a resolution matches any resolution. -/
theorem validateBug_status_set (vs : List JiraBugState) (sav : Option JiraBugState) :
    (sav = none → allowedStates vs sav = vs) ∧
    (∀ s, sav = some s → vs.any (stateEqCI s) = true → allowedStates vs sav = vs) ∧
    (∀ s, sav = some s → vs.any (stateEqCI s) = false →
      allowedStates vs sav = vs ++ [s]) ∧
    (∀ bug : VIssue,
      (stateContrib bug (some vs) sav).2 = [] ↔
        (allowedStates vs sav).any (stateMatches bug.status bug.resolution) = true) ∧
    (∀ st st2 res res2 s, upperStr st = upperStr st2 → upperStr res = upperStr res2 →
      stateMatches st res s = stateMatches st2 res2 s) ∧
    (∀ st res (s s2 : JiraBugState), upperStr s.status = upperStr s2.status →
      upperStr s.resolution = upperStr s2.resolution →
      stateMatches st res s = stateMatches st res s2) ∧
    (∀ st res res2 (s : JiraBugState), s.resolution = "" →
      stateMatches st res s = stateMatches st res2 s) := by
  refine ⟨?_, ?_, ?_, ?_, ?_, ?_, ?_⟩
  · intro h
    subst h
    rfl
  · intro s hs hany
    subst hs
    simp [allowedStates, hany]
  · intro s hs hany
    subst hs
    simp [allowedStates, hany]
  · intro bug
    cases h : (allowedStates vs sav).any (stateMatches bug.status bug.resolution) with
    | false => simp [stateContrib, h]
    | true => simp [stateContrib, h]
  · intro st st2 res res2 s h1 h2
    simp only [stateMatches, eqFold]
    rw [h1, h2]
  · intro st res s s2 h1 h2
    have e1 : s.status = "" ↔ s2.status = "" := by
      constructor <;> intro h
      · rw [h] at h1
        exact (upperStr_eq_empty_iff s2.status).mp h1.symm
      · rw [h] at h1
        exact (upperStr_eq_empty_iff s.status).mp h1
    have e2 : s.resolution = "" ↔ s2.resolution = "" := by
      constructor <;> intro h
      · rw [h] at h2
        exact (upperStr_eq_empty_iff s2.resolution).mp h2.symm
      · rw [h] at h2
        exact (upperStr_eq_empty_iff s.resolution).mp h2
    have b1 : (s.status == "") = (s2.status == "") := by
      rw [Bool.eq_iff_iff, beq_iff_eq, beq_iff_eq]
      exact e1
    have b2 : (s.resolution == "") = (s2.resolution == "") := by
      rw [Bool.eq_iff_iff, beq_iff_eq, beq_iff_eq]
      exact e2
    simp only [stateMatches, eqFold]
    rw [h1, h2, b1, b2]
  · intro st res res2 s h
    simp [stateMatches, h]

/-- Witness for C3 at concrete inputs: the post-validation state is
appended when missing, and matching "Modified" is the same as matching
"MODIFIED". -/
theorem validateBug_status_set_witness :
    allowedStates [{ status := "MODIFIED" }] (some { status := "VERIFIED" }) =
      [{ status := "MODIFIED" }] ++ [{ status := "VERIFIED" }] ∧
    stateMatches "Modified" "" { status := "MODIFIED" } =
      stateMatches "MODIFIED" "" { status := "MODIFIED" } := by
  have h := validateBug_status_set [{ status := "MODIFIED" }] (some { status := "VERIFIED" })
  exact ⟨h.2.2.1 { status := "VERIFIED" } rfl (by decide),
    h.2.2.2.2.1 "Modified" "MODIFIED" "" "" { status := "MODIFIED" } (by decide) rfl⟩

/-! ## The title parser -/

/-- ASCII uppercase letter. -/
def isUpperCh (c : Char) : Bool := decide (65 ≤ c.toNat ∧ c.toNat ≤ 90)

/-- ASCII digit. -/
def isDigitCh (c : Char) : Bool := decide (48 ≤ c.toNat ∧ c.toNat ≤ 57)

/-- Try to read `PROJECT-NUMBER:` (colon immediately after the number) at
the head of the character list. -/
def matchKeyAt (l : List Char) : Option (List Char) :=
  let proj := l.takeWhile isUpperCh
  if proj.isEmpty then none
  else
    match l.drop proj.length with
    | '-' :: rest =>
      let num := rest.takeWhile isDigitCh
      if num.isEmpty then none
      else
        match rest.drop num.length with
        | ':' :: _ => some (proj ++ '-' :: num)
        | _ => none
    | _ => none

/-- The first (leftmost) `PROJECT-NUMBER:` match in the text; anything
before it — a bracketed tag, a Revert wrapper — is skipped over. -/
def findKey : List Char → Option (List Char)
  | [] => none
  | c :: cs =>
    match matchKeyAt (c :: cs) with
    | some k => some k
    | none => findKey cs

/-- Case-insensitive check that the text begins with the given pattern. -/
def startsWithCI : List Char → List Char → Bool
  | [], _ => true
  | _ :: _, [] => false
  | p :: ps, c :: cs => (toUpperCh c == p) && startsWithCI ps cs

/-- Titles that explicitly request no ticket. -/
def isNoTicketTitle (title : String) : Bool :=
  startsWithCI "NO-ISSUE".data title.data || startsWithCI "NO-JIRA".data title.data

/-- Modelled from the spec: `jiraKeyFromTitle` (section 4.1; the parser
source file is absent from the sources at hand). Returns (key, notFound,
isDefect): a case-insensitive `NO-ISSUE`/`NO-JIRA` lead yields the
sentinel key, otherwise the first `PROJECT-NUMBER:` match wins, with
isDefect exactly when the project is OCPBUGS. -/
def jiraKeyFromTitle (title : String) : String × Bool × Bool :=
  if isNoTicketTitle title then ("NO-JIRA", false, false)
  else
    match findKey title.data with
    | some k => (String.mk k, false, k.takeWhile isUpperCh == "OCPBUGS".data)
    | none => ("", true, false)

/-! ### The `TestBugKeyFromTitle` fixtures, reproduced against the model -/

example : jiraKeyFromTitle "no match" = ("", true, false) := by decide

example : jiraKeyFromTitle "OCPBUGS-12: Canonical" = ("OCPBUGS-12", false, true) := by decide

example : jiraKeyFromTitle "OCPBUGS-12 : Space before colon" = ("", true, false) := by decide

example : jiraKeyFromTitle "[rebase release-1.0] OCPBUGS-12: Pre" =
    ("OCPBUGS-12", false, true) := by decide

example : jiraKeyFromTitle "Revert: \"OCPBUGS-12: Revert default\"" =
    ("OCPBUGS-12", false, true) := by decide

example : jiraKeyFromTitle "OCPBUGS-34: Revert: \"OCPBUGS-12: Revert default\"" =
    ("OCPBUGS-34", false, true) := by decide

example : jiraKeyFromTitle "[rebase release-1.0] JIRA-12: Pre" =
    ("JIRA-12", false, false) := by decide

example : jiraKeyFromTitle "JIRA-34: Revert: \"OCPBUGS-12: Revert default\"" =
    ("JIRA-34", false, false) := by decide

example : jiraKeyFromTitle "OCPBUGS-12: Revert: \"JIRA-34: Revert default\"" =
    ("OCPBUGS-12", false, true) := by decide

example : jiraKeyFromTitle "No-issue: OCPBUGS-12: blah blah" = ("NO-JIRA", false, false) := by
  decide

example : jiraKeyFromTitle "OCPBUGS-12: NO-ISSUE: blah blah" = ("OCPBUGS-12", false, true) := by
  decide

example : jiraKeyFromTitle "No-jira: OCPBUGS-12: blah blah" = ("NO-JIRA", false, false) := by
  decide

/-! ## Claim C6 -/

/-- C6: the title parser yields the sentinel key for any text opening
with a case-insensitive NO-ISSUE or NO-JIRA, even when a ticket
reference follows; the spec's three examples behave as stated; when a
key is found, isDefect holds exactly when its project segment is
OCPBUGS; and notFound comes with an empty key. -/
theorem jiraKeyFromTitle_props :
    (∀ rest : List Char,
      jiraKeyFromTitle (String.mk ("No-issue:".data ++ rest)) = ("NO-JIRA", false, false)) ∧
    (∀ rest : List Char,
      jiraKeyFromTitle (String.mk ("no-jira".data ++ rest)) = ("NO-JIRA", false, false)) ∧
    jiraKeyFromTitle "[rebase release-1.0] OCPBUGS-12: Pre" = ("OCPBUGS-12", false, true) ∧
    jiraKeyFromTitle "OCPBUGS-12 : Space before colon" = ("", true, false) ∧
    jiraKeyFromTitle "No-issue: OCPBUGS-12: blah" = ("NO-JIRA", false, false) ∧
    (∀ title k nf d, jiraKeyFromTitle title = (k, nf, d) → nf = false →
      isNoTicketTitle title = false →
      d = (k.data.takeWhile isUpperCh == "OCPBUGS".data)) ∧
    (∀ title, (jiraKeyFromTitle title).2.1 = true → (jiraKeyFromTitle title).1 = "") := by
  refine ⟨fun rest => rfl, fun rest => rfl, by decide, by decide, by decide, ?_, ?_⟩
  · intro title k nf d h hnf hno
    unfold jiraKeyFromTitle at h
    rw [hno] at h
    simp only [Bool.false_eq_true, if_false] at h
    cases hf : findKey title.data with
    | some k0 =>
      rw [hf] at h
      simp only [Prod.mk.injEq] at h
      obtain ⟨hk, _, hd⟩ := h
      subst hk
      exact hd.symm
    | none =>
      rw [hf] at h
      simp only [Prod.mk.injEq] at h
      obtain ⟨_, hnf2, _⟩ := h
      subst hnf2
      exact Bool.noConfusion hnf
  · intro title
    unfold jiraKeyFromTitle
    cases hn : isNoTicketTitle title with
    | true =>
      intro h
      simp at h
    | false =>
      cases hf : findKey title.data with
      | some k0 =>
        intro h
        simp at h
      | none =>
        intro _
        rfl

/-- Witness for C6 at concrete titles. -/
theorem jiraKeyFromTitle_props_witness :
    jiraKeyFromTitle (String.mk ("No-issue:".data ++ " and OCPBUGS-7: later".data)) =
      ("NO-JIRA", false, false) ∧
    true = ("OCPBUGS-12".data.takeWhile isUpperCh == "OCPBUGS".data) := by
  have h := jiraKeyFromTitle_props
  exact ⟨h.1 " and OCPBUGS-7: later".data,
    h.2.2.2.2.2.1 "OCPBUGS-12: Canonical" "OCPBUGS-12" false true (by decide) rfl (by decide)⟩

/-! ## The external-link merge-completion check -/

/-- A pull request referenced by a tracker-side external link. -/
structure PRRef where
  org : String
  repo : String
  num : Nat
deriving Repr, DecidableEq

/-- Modelled from the spec: the merge-completion check of the handler
(section 4.6; the handler source is absent from the sources at hand,
with the partition condition pinned by the TestHandle fixtures). Links
pointing at an unrecognized repository are dropped; the remaining
referenced requests are partitioned into merged and unmerged by the
collaborator's answer; the post-merge transition fires exactly when the
unmerged set is empty, and the partition is the partial-progress
report otherwise. -/
def mergeCompletion (links : List PRRef) (recognized : List (String × String))
    (isMerged : PRRef → Bool) : List PRRef × List PRRef × Bool :=
  let relevant := links.filter (fun r => recognized.contains (r.org, r.repo))
  let merged := relevant.filter isMerged
  let unmerged := relevant.filter (fun r => !(isMerged r))
  (merged, unmerged, unmerged.isEmpty)

/-! ### The `TestHandle` merge fixtures, reproduced against the model -/

example :
    mergeCompletion
      [⟨"org", "repo", 1⟩, ⟨"org", "repo", 22⟩, ⟨"org", "repo", 23⟩]
      [("org", "repo")] (fun _ => true) =
    ([⟨"org", "repo", 1⟩, ⟨"org", "repo", 22⟩, ⟨"org", "repo", 23⟩], [], true) := by decide

example :
    mergeCompletion [⟨"org", "repo", 1⟩, ⟨"org", "repo", 22⟩]
      [("org", "repo")] (fun r => r.num == 1) =
    ([⟨"org", "repo", 1⟩], [⟨"org", "repo", 22⟩], false) := by decide

/-! ## Claim C7 -/

/-- C7 as stated is false: at the fixture "External bug on rep that is
not in our config is ignored", the only link targets an unrecognized
repository, so the merged set is empty — yet the transition fires (the
fixture moves the bug to MODIFIED with an empty merged list). -/
theorem mergeCompletion_cex :
    mergeCompletion [⟨"unreferenced", "repo", 22⟩] [("org", "repo")] (fun _ => false) =
      ([], [], true) := by decide

/-- C7 amended: the post-merge transition fires exactly when the set of
unmerged recognized referenced requests is empty (the merged set may be
empty); unrecognized links change nothing; the partition is faithful to
the collaborator's merged answers. -/
theorem mergeCompletion_fires_iff (links : List PRRef)
    (recognized : List (String × String)) (isMerged : PRRef → Bool) :
    ((mergeCompletion links recognized isMerged).2.2 = true ↔
      (mergeCompletion links recognized isMerged).2.1 = []) ∧
    (∀ r : PRRef, recognized.contains (r.org, r.repo) = false →
      mergeCompletion (links ++ [r]) recognized isMerged =
        mergeCompletion links recognized isMerged) ∧
    (∀ r : PRRef, r ∈ (mergeCompletion links recognized isMerged).1 →
      isMerged r = true ∧ recognized.contains (r.org, r.repo) = true) ∧
    (∀ r : PRRef, r ∈ (mergeCompletion links recognized isMerged).2.1 →
      isMerged r = false ∧ recognized.contains (r.org, r.repo) = true) := by
  refine ⟨List.isEmpty_iff, ?_, ?_, ?_⟩
  · intro r h
    unfold mergeCompletion
    rw [List.filter_append]
    have h2 : List.filter (fun q : PRRef => recognized.contains (q.org, q.repo)) [r] = [] := by
      simp only [List.filter, h]
    rw [h2, List.append_nil]
  · intro r hr
    unfold mergeCompletion at hr
    simp only [List.mem_filter] at hr
    exact ⟨hr.2, hr.1.2⟩
  · intro r hr
    unfold mergeCompletion at hr
    simp only [List.mem_filter] at hr
    exact ⟨by simpa using hr.2, hr.1.2⟩

/-- Witness for C7's amended statement at the partial-merge fixture. -/
theorem mergeCompletion_fires_iff_witness :
    ((mergeCompletion [⟨"org", "repo", 1⟩, ⟨"org", "repo", 22⟩] [("org", "repo")]
        (fun r => r.num == 1)).2.2 = true ↔
      (mergeCompletion [⟨"org", "repo", 1⟩, ⟨"org", "repo", 22⟩] [("org", "repo")]
        (fun r => r.num == 1)).2.1 = []) ∧
    mergeCompletion
        ([⟨"org", "repo", 1⟩, ⟨"org", "repo", 22⟩] ++ [⟨"unreferenced", "repo", 5⟩])
        [("org", "repo")] (fun r => r.num == 1) =
      mergeCompletion [⟨"org", "repo", 1⟩, ⟨"org", "repo", 22⟩] [("org", "repo")]
        (fun r => r.num == 1) := by
  have h := mergeCompletion_fires_iff [⟨"org", "repo", 1⟩, ⟨"org", "repo", 22⟩]
    [("org", "repo")] (fun r => r.num == 1)
  exact ⟨h.1, h.2.1 ⟨"unreferenced", "repo", 5⟩ (by decide)⟩

/-! ## The cherry-pick cloner -/

/-- The cloner's view of a ticket: key, target version and the keys of
its clones (reached through "clone" links). -/
structure CloneIssue where
  key : String
  targetVersion : Option String := none
  cloneKeys : List String := []
deriving Repr, DecidableEq

/-- The tracker's state as the cloner sees it: the issues and a counter
for the next created ticket number. -/
structure TrackerState where
  issues : List CloneIssue
  counter : Nat
deriving Repr, DecidableEq

/-- Fetch a ticket by key. -/
def findIssue (st : TrackerState) (key : String) : Option CloneIssue :=
  st.issues.find? (fun i => i.key == key)

/-- Search the existing clone links of the original ticket for a clone
whose target version equals the branch's configured one. -/
def findExistingClone (st : TrackerState) (orig : CloneIssue) (v : String) : Option String :=
  orig.cloneKeys.find? (fun k =>
    match findIssue st k with
    | some c => c.targetVersion == some v
    | none => false)

/-- What the cloner signals back: retitle the request to an existing
clone, or to a newly created one. -/
inductive CloneOutcome where
  | retitleTo (key : String)
  | createdNew (key : String)
deriving Repr, DecidableEq

/-- Key given to a newly created ticket. -/
def newCloneKey (st : TrackerState) : String := "OCPBUGS-" ++ toString st.counter

/-- Create the new clone: a fresh ticket carrying the configured target
version, linked as a clone of the original. -/
def applyClone (st : TrackerState) (origKey v : String) : TrackerState :=
  { issues := { key := newCloneKey st, targetVersion := some v, cloneKeys := [] } ::
      st.issues.map (fun i =>
        if i.key == origKey then { i with cloneKeys := newCloneKey st :: i.cloneKeys } else i),
    counter := st.counter + 1 }

/-- Modelled from the spec: the cherry-pick cloner (section 4.7; the
cloner source file is absent from the sources at hand). Reuse an
existing clone whose target version matches and signal retitle-only,
otherwise create one new ticket. -/
def cherryPickClone (st : TrackerState) (origKey v : String) :
    TrackerState × Option CloneOutcome :=
  match findIssue st origKey with
  | none => (st, none)
  | some orig =>
    match findExistingClone st orig v with
    | some k => (st, some (CloneOutcome.retitleTo k))
    | none => (applyClone st origKey v, some (CloneOutcome.createdNew (newCloneKey st)))

theorem find?_key_map (l : List CloneIssue) (key nk : String) :
    List.find? (fun i => i.key == key)
      (l.map (fun i =>
        if i.key == key then { i with cloneKeys := nk :: i.cloneKeys } else i)) =
    (List.find? (fun i => i.key == key) l).map
      (fun i => if i.key == key then { i with cloneKeys := nk :: i.cloneKeys } else i) := by
  induction l with
  | nil => rfl
  | cons a l ih =>
    have hk : ((if a.key == key then { a with cloneKeys := nk :: a.cloneKeys } else a).key ==
        key) = (a.key == key) := by
      by_cases h : (a.key == key) = true
      · simp [h]
      · simp [h]
    rw [List.map_cons, List.find?_cons, List.find?_cons, hk]
    cases h : (a.key == key) with
    | true => simp [h, beq_iff_eq.mp h]
    | false => simpa using ih

/-! ## Claim C8 -/

/-- C8: when the original ticket already has a clone at the configured
target version, the cloner reuses it — no creation, retitle-only, state
unchanged; otherwise it creates exactly one ticket, and an immediately
repeated invocation for the same (ticket, branch) pair reuses that
clone, so two invocations perform exactly one creation. A clone at a
different target version never satisfies the reuse search, so it does
not prevent creation (see the witness). -/
theorem cherryPickClone_idempotent (st : TrackerState) (origKey v : String)
    (orig : CloneIssue) (h1 : findIssue st origKey = some orig)
    (h2 : origKey ≠ newCloneKey st) :
    (∀ k, findExistingClone st orig v = some k →
      cherryPickClone st origKey v = (st, some (CloneOutcome.retitleTo k))) ∧
    (findExistingClone st orig v = none →
      cherryPickClone st origKey v =
        (applyClone st origKey v, some (CloneOutcome.createdNew (newCloneKey st))) ∧
      (applyClone st origKey v).issues.length = st.issues.length + 1 ∧
      cherryPickClone (applyClone st origKey v) origKey v =
        (applyClone st origKey v, some (CloneOutcome.retitleTo (newCloneKey st)))) := by
  constructor
  · intro k hk
    unfold cherryPickClone
    rw [h1]
    simp [hk]
  · intro hn
    have h1f : List.find? (fun i : CloneIssue => i.key == origKey) st.issues = some orig := h1
    have horig : (orig.key == origKey) = true := by
      have hp := List.find?_some h1f
      simpa using hp
    have hne : (newCloneKey st == origKey) = false := by
      cases hb : (newCloneKey st == origKey) with
      | false => rfl
      | true => exact absurd (beq_iff_eq.mp hb).symm h2
    have hfi : findIssue (applyClone st origKey v) origKey =
        some { orig with cloneKeys := newCloneKey st :: orig.cloneKeys } := by
      unfold findIssue applyClone
      rw [List.find?_cons]
      simp only [hne]
      rw [find?_key_map, h1f]
      simp [horig, beq_iff_eq.mp horig]
    have hh : findIssue (applyClone st origKey v) (newCloneKey st) =
        some { key := newCloneKey st, targetVersion := some v, cloneKeys := [] } := by
      unfold findIssue applyClone
      rw [List.find?_cons]
      simp
    have hfe : findExistingClone (applyClone st origKey v)
        { orig with cloneKeys := newCloneKey st :: orig.cloneKeys } v =
        some (newCloneKey st) := by
      unfold findExistingClone
      rw [List.find?_cons]
      simp only [hh]
      simp
    refine ⟨?_, ?_, ?_⟩
    · unfold cherryPickClone
      rw [h1]
      simp [hn]
    · unfold applyClone
      simp
    · unfold cherryPickClone
      rw [hfi]
      simp [hfe]

/-- Witness for C8 at the fixture states: a clone at the requested
version v1 is reused, while a state whose only clone targets v3 leads to
a creation and the repeated call then retitles to the created clone. -/
theorem cherryPickClone_idempotent_witness :
    cherryPickClone
        ⟨[{ key := "OCPBUGS-123", targetVersion := some "v2", cloneKeys := ["OCPBUGS-124"] },
          { key := "OCPBUGS-124", targetVersion := some "v1" }], 125⟩
        "OCPBUGS-123" "v1" =
      (⟨[{ key := "OCPBUGS-123", targetVersion := some "v2", cloneKeys := ["OCPBUGS-124"] },
          { key := "OCPBUGS-124", targetVersion := some "v1" }], 125⟩,
        some (CloneOutcome.retitleTo "OCPBUGS-124")) ∧
    (cherryPickClone
        ⟨[{ key := "OCPBUGS-123", targetVersion := some "v2", cloneKeys := ["OCPBUGS-124"] },
          { key := "OCPBUGS-124", targetVersion := some "v3" }], 125⟩
        "OCPBUGS-123" "v1").2 =
      some (CloneOutcome.createdNew "OCPBUGS-125") ∧
    cherryPickClone
        (applyClone
          ⟨[{ key := "OCPBUGS-123", targetVersion := some "v2", cloneKeys := ["OCPBUGS-124"] },
            { key := "OCPBUGS-124", targetVersion := some "v3" }], 125⟩
          "OCPBUGS-123" "v1")
        "OCPBUGS-123" "v1" =
      (applyClone
          ⟨[{ key := "OCPBUGS-123", targetVersion := some "v2", cloneKeys := ["OCPBUGS-124"] },
            { key := "OCPBUGS-124", targetVersion := some "v3" }], 125⟩
          "OCPBUGS-123" "v1",
        some (CloneOutcome.retitleTo "OCPBUGS-125")) := by
  have ha := cherryPickClone_idempotent
    ⟨[{ key := "OCPBUGS-123", targetVersion := some "v2", cloneKeys := ["OCPBUGS-124"] },
      { key := "OCPBUGS-124", targetVersion := some "v1" }], 125⟩
    "OCPBUGS-123" "v1"
    { key := "OCPBUGS-123", targetVersion := some "v2", cloneKeys := ["OCPBUGS-124"] }
    (by decide) (by decide)
  have hb := cherryPickClone_idempotent
    ⟨[{ key := "OCPBUGS-123", targetVersion := some "v2", cloneKeys := ["OCPBUGS-124"] },
      { key := "OCPBUGS-124", targetVersion := some "v3" }], 125⟩
    "OCPBUGS-123" "v1"
    { key := "OCPBUGS-123", targetVersion := some "v2", cloneKeys := ["OCPBUGS-124"] }
    (by decide) (by decide)
  obtain ⟨hc, _, he⟩ := hb.2 (by decide)
  refine ⟨ha.1 "OCPBUGS-124" (by decide), ?_, he⟩
  rw [hc]
  rfl

/-! ## pkg/helpers, embedded from `src/pkg/helpers/helpers.go` -/

/-- A JSON value: the shape of the data held in an issue's Unknowns map. -/
inductive Json where
  | null
  | bool (b : Bool)
  | num (n : Int)
  | str (s : String)
  | arr (elems : List Json)
  | obj (fields : List (String × Json))

/-- A value of the Unknowns map: a JSON value, or one `json.Marshal`
cannot serialize. -/
inductive UnknownVal where
  | val (j : Json)
  | badMarshal

/-- Model of `json.Marshal` on an Unknowns entry. -/
def marshalJson : UnknownVal → Except String Json
  | .val j => .ok j
  | .badMarshal => .error "unsupported type"

/-- `helpers.SecurityLevel`. -/
structure SecurityLevel where
  self : String := ""
  id : String := ""
  name : String := ""
  description : String := ""
deriving Repr, DecidableEq

/-- go-jira's `Version`, reduced to the name the plugin reads. -/
structure Version where
  name : String := ""
deriving Repr, DecidableEq

/-- go-jira's `User`, reduced to identifying fields. -/
structure User where
  name : String := ""
  displayName : String := ""
deriving Repr, DecidableEq

/-- `helpers.Severity`. -/
structure Severity where
  self : String := ""
  id : String := ""
  value : String := ""
  disabled : Bool := false
deriving Repr, DecidableEq

/-- The issue fields `GetUnknownField` reads: an optional Unknowns map
(`nil` map and absent key both count as unset). -/
structure IssueFields where
  unknowns : Option (List (String × UnknownVal)) := none

/-- go-jira's issue, with its optional Fields pointer. -/
structure Issue where
  fields : Option IssueFields := none

/-- The custom-field id of the QA contact. -/
def qaContactField : String := "customfield_12316243"

/-- The custom-field id of the target version. -/
def TargetVersionField : String := "customfield_12319940"

/-- The custom-field id of the severity. -/
def SeverityField : String := "customfield_12316142"

/-- The unmarshal half of `GetUnknownField` on a present entry. -/
def decodeJson (field : String) (j : Json) (dec : Json → Except String α) :
    Bool × Option String × Option α :=
  match dec j with
  | .error e =>
    (true, some ("failed to unmarshall the json to struct for " ++ field ++
      ". Error: " ++ e), none)
  | .ok a => (true, none, some a)

/-- The marshal-then-unmarshal half of `GetUnknownField` on a present
entry. -/
def decodeEntry (field : String) (uv : UnknownVal) (dec : Json → Except String α) :
    Bool × Option String × Option α :=
  match marshalJson uv with
  | .error e =>
    (true, some ("failed to process the custom field " ++ field ++
      ". Error : " ++ e), none)
  | .ok j => decodeJson field j dec

/-- `GetUnknownField`: fetch `field` from the Unknowns map and decode it
into the callback's object. Absence (nil Fields, nil Unknowns, or key
not present) yields (false, no error, no value); a present entry that
fails to marshal or unmarshal yields (true, an error, no value). -/
def GetUnknownField (field : String) (issue : Issue)
    (dec : Json → Except String α) : Bool × Option String × Option α :=
  match issue with
  | { fields := none } => (false, none, none)
  | { fields := some { unknowns := none } } => (false, none, none)
  | { fields := some { unknowns := some m } } =>
    match m.lookup field with
    | none => (false, none, none)
    | some uv => decodeEntry field uv dec

/-- Read a string member of a JSON object, the zero value when absent. -/
def getStrField (fs : List (String × Json)) (nm : String) : Except String String :=
  match fs.lookup nm with
  | none => .ok ""
  | some (.str s) => .ok s
  | some _ => .error ("cannot unmarshal field " ++ nm)

/-- Read a boolean member of a JSON object, the zero value when absent. -/
def getBoolField (fs : List (String × Json)) (nm : String) : Except String Bool :=
  match fs.lookup nm with
  | none => .ok false
  | some (.bool b) => .ok b
  | some _ => .error ("cannot unmarshal field " ++ nm)

/-- Model of `json.Unmarshal` into a `SecurityLevel`. -/
def decSecurityLevel : Json → Except String SecurityLevel
  | .obj fs => do
    let s ← getStrField fs "self"
    let i ← getStrField fs "id"
    let n ← getStrField fs "name"
    let d ← getStrField fs "description"
    .ok ⟨s, i, n, d⟩
  | _ => .error "cannot unmarshal into SecurityLevel"

/-- Model of `json.Unmarshal` into a `User`. -/
def decUser : Json → Except String User
  | .obj fs => do
    let n ← getStrField fs "name"
    let d ← getStrField fs "displayName"
    .ok ⟨n, d⟩
  | _ => .error "cannot unmarshal into User"

/-- Model of `json.Unmarshal` into a `Version`. -/
def decVersion : Json → Except String Version
  | .obj fs => do
    let n ← getStrField fs "name"
    .ok ⟨n⟩
  | _ => .error "cannot unmarshal into Version"

/-- Model of `json.Unmarshal` into a version list. -/
def decVersions : Json → Except String (List Version)
  | .arr es => es.mapM decVersion
  | _ => .error "cannot unmarshal into version list"

/-- Model of `json.Unmarshal` into a `Severity`. -/
def decSeverity : Json → Except String Severity
  | .obj fs => do
    let s ← getStrField fs "self"
    let i ← getStrField fs "id"
    let v ← getStrField fs "value"
    let d ← getBoolField fs "disabled"
    .ok ⟨s, i, v, d⟩
  | _ => .error "cannot unmarshal into Severity"

/-- `GetIssueSecurityLevel`: nil with no error when the field is unset. -/
def GetIssueSecurityLevel (issue : Issue) : Option SecurityLevel × Option String :=
  match GetUnknownField "security" issue decSecurityLevel with
  | (false, err, _) => (none, err)
  | (true, err, v) => (some (v.getD {}), err)

/-- `GetIssueQaContact`. -/
def GetIssueQaContact (issue : Issue) : Option User × Option String :=
  match GetUnknownField qaContactField issue decUser with
  | (false, err, _) => (none, err)
  | (true, err, v) => (some (v.getD {}), err)

/-- `GetIssueTargetVersion`; the callback's object starts as a one-entry
list of a zero version. -/
def GetIssueTargetVersion (issue : Issue) : Option (List Version) × Option String :=
  match GetUnknownField TargetVersionField issue decVersions with
  | (false, err, _) => (none, err)
  | (true, err, v) => (some (v.getD [{}]), err)

/-- `GetIssueSeverity`. -/
def GetIssueSeverity (issue : Issue) : Option Severity × Option String :=
  match GetUnknownField SeverityField issue decSeverity with
  | (false, err, _) => (none, err)
  | (true, err, v) => (some (v.getD {}), err)

/-- A field counts as absent when the Fields pointer is nil, the Unknowns
map is nil, or the key is not in the map. -/
def fieldAbsent (field : String) (issue : Issue) : Bool :=
  match issue with
  | { fields := none } => true
  | { fields := some { unknowns := none } } => true
  | { fields := some { unknowns := some m } } => (m.lookup field).isNone

/-! ## Claim C10 -/

theorem getUnknownField_absent {α : Type} (field : String) (issue : Issue)
    (dec : Json → Except String α) (h : fieldAbsent field issue = true) :
    GetUnknownField field issue dec = (false, none, none) := by
  cases issue with
  | mk fields =>
    cases fields with
    | none => rfl
    | some f =>
      cases f with
      | mk unknowns =>
        cases unknowns with
        | none => rfl
        | some m =>
          simp only [fieldAbsent] at h
          simp only [GetUnknownField]
          cases hl : m.lookup field with
          | none => rfl
          | some uv =>
            rw [hl] at h
            simp at h

/-- C10: absence of a custom field (nil Fields, nil Unknowns, or missing
key) makes `GetUnknownField` return (false, no error); the four derived
getters then return (nil, nil); and an error is only ever produced for a
present field, with the first return value true in that case. -/
theorem GetUnknownField_props {α : Type} (field : String) (issue : Issue)
    (dec : Json → Except String α) :
    (fieldAbsent field issue = true →
      GetUnknownField field issue dec = (false, none, none)) ∧
    (∀ e, (GetUnknownField field issue dec).2.1 = some e →
      (GetUnknownField field issue dec).1 = true) ∧
    (fieldAbsent "security" issue = true → GetIssueSecurityLevel issue = (none, none)) ∧
    (fieldAbsent qaContactField issue = true → GetIssueQaContact issue = (none, none)) ∧
    (fieldAbsent TargetVersionField issue = true →
      GetIssueTargetVersion issue = (none, none)) ∧
    (fieldAbsent SeverityField issue = true → GetIssueSeverity issue = (none, none)) := by
  refine ⟨getUnknownField_absent field issue dec, ?_, ?_, ?_, ?_, ?_⟩
  · intro e
    have hdec : ∀ uv, (decodeEntry field uv dec).1 = true := by
      intro uv
      unfold decodeEntry
      cases marshalJson uv with
      | error e2 => rfl
      | ok j =>
        show (decodeJson field j dec).1 = true
        unfold decodeJson
        cases dec j with
        | error e2 => rfl
        | ok a => rfl
    cases issue with
    | mk fields =>
      cases fields with
      | none => exact fun hc => Option.noConfusion hc
      | some f =>
        cases f with
        | mk unknowns =>
          cases unknowns with
          | none => exact fun hc => Option.noConfusion hc
          | some m =>
            simp only [GetUnknownField]
            cases m.lookup field with
            | none => exact fun hc => Option.noConfusion hc
            | some uv => exact fun _ => hdec uv
  · intro h
    unfold GetIssueSecurityLevel
    rw [getUnknownField_absent "security" issue decSecurityLevel h]
  · intro h
    unfold GetIssueQaContact
    rw [getUnknownField_absent qaContactField issue decUser h]
  · intro h
    unfold GetIssueTargetVersion
    rw [getUnknownField_absent TargetVersionField issue decVersions h]
  · intro h
    unfold GetIssueSeverity
    rw [getUnknownField_absent SeverityField issue decSeverity h]

/-- Witness for C10 on a concrete issue with empty Unknowns and on one
with a nil Fields pointer. -/
theorem GetUnknownField_props_witness :
    GetUnknownField "security" { fields := some {} } decSecurityLevel =
      ((false : Bool), (none : Option String), (none : Option SecurityLevel)) ∧
    GetIssueSecurityLevel {} = (none, none) ∧
    GetIssueTargetVersion { fields := some { unknowns := some [] } } = (none, none) := by
  refine ⟨?_, ?_, ?_⟩
  · exact (GetUnknownField_props "security" { fields := some {} } decSecurityLevel).1 rfl
  · exact (GetUnknownField_props "security" ({} : Issue) decSecurityLevel).2.2.1 rfl
  · exact (GetUnknownField_props TargetVersionField
      { fields := some { unknowns := some [] } } decVersions).2.2.2.2.1 rfl

/-! ## The security-level gate and the mutation guard -/

/-- Modelled from the spec: `isBugAllowed` (security-level membership,
section 4.4; the handler source file is absent from the sources at
hand, outputs pinned by the TestIsBugAllowed fixtures). No configured
level means every ticket is allowed; a ticket without a security level
carries the implicit "default" level. -/
def isBugAllowed (issue : Issue) (securityLevels : List String) : Bool × Option String :=
  if securityLevels.isEmpty then (true, none)
  else
    match GetIssueSecurityLevel issue with
    | (_, some e) => (false, some e)
    | (level, none) =>
      let levelName :=
        match level with
        | none => "default"
        | some l => l.name
      (securityLevels.contains levelName, none)

/-! ### The `TestIsBugAllowed` fixtures, reproduced against the model -/

/-- An issue whose Unknowns map carries a security level of the given
name, as the fixtures build it. -/
def secIssue (levelName : String) : Issue :=
  { fields := some
      { unknowns := some [("security",
          UnknownVal.val (Json.obj [("name", Json.str levelName)]))] } }

example : isBugAllowed {} [] = (true, none) := by decide

example : isBugAllowed (secIssue "whoa") ["whoa", "really", "cool"] = (true, none) := by decide

example : isBugAllowed (secIssue "whoa") ["other"] = (false, none) := by decide

example : isBugAllowed { fields := some {} } ["default"] = (true, none) := by decide

example : isBugAllowed { fields := some {} } ["internal"] = (false, none) := by decide

/-- A mutation the engine can propose on a ticket. -/
inductive TicketMutation where
  | transition (key : String) (target : JiraBugState)
deriving Repr, DecidableEq

/-- The handler's resolved view of one ticket: the raw issue (carrying
the security level) and the normalized validation view. -/
structure HandledTicket where
  issue : Issue
  view : VIssue

/-- Modelled from the spec: the mutation-gating structure of the handler
(sections 4.5 and 7 of the spec; the handler source file is absent from
the sources at hand): a missing ticket and a ticket whose security
level is not allowed are left untouched; otherwise the post-validation
transition is proposed unless the ticket is already in the target
state. -/
def reconcileTicket (t : Option HandledTicket) (opts : JiraBranchOptions) :
    List TicketMutation :=
  match t with
  | none => []
  | some tk =>
    if (isBugAllowed tk.issue opts.allowedSecurityLevels).1 then
      match opts.stateAfterValidation with
      | none => []
      | some target =>
        if stateMatches tk.view.status tk.view.resolution target then []
        else [TicketMutation.transition tk.view.key target]
    else []

/-! ## Claim C9 -/

/-- C9: the engine never mutates a missing ticket, and never mutates a
ticket whose security level is not among the allowed ones — the
reconciliation pass proposes no mutation at all for them. -/
theorem reconcileTicket_guard (opts : JiraBranchOptions) :
    (reconcileTicket none opts = []) ∧
    (∀ tk : HandledTicket,
      (isBugAllowed tk.issue opts.allowedSecurityLevels).1 = false →
      reconcileTicket (some tk) opts = []) := by
  constructor
  · rfl
  · intro tk h
    simp only [reconcileTicket]
    rw [h]
    simp

/-- Witness for C9 at the fixture "Bug with non-allowed security level is
ignored": security level "security" against allowed level "internal". -/
theorem reconcileTicket_guard_witness :
    (isBugAllowed (secIssue "security") ["internal"]).1 = false ∧
    reconcileTicket
      (some { issue := secIssue "security", view := { key := "OCPBUGS-123" } })
      { allowedSecurityLevels := ["internal"],
        stateAfterValidation := some { status := "VERIFIED" } } = [] := by
  constructor
  · decide
  · exact (reconcileTicket_guard
      { allowedSecurityLevels := ["internal"],
        stateAfterValidation := some { status := "VERIFIED" } }).2
      { issue := secIssue "security", view := { key := "OCPBUGS-123" } }
      (by decide)

end JiraLifecycle
